import Mathlib

/-!
Verification of the relational-store wrapper of the exercise-app repository.

The development shallowly embeds `src/utilities/database.py` (class `Database`,
a thin wrapper over Python's `sqlite3` module) and, for the tracker-page claim,
the `add_record` function of `src/pages/1_Add_Record.py`.

Embedding conventions:
* The sqlite3 connection state is a `Database` structure holding the committed
  (durable) database, the pending (connection-visible, possibly uncommitted)
  database, the `total_changes` counter, and the two configuration facts set by
  `Database.__init__` (`detect_types` flags and the `sqlite3.Row` row factory).
* SQL text passed through to the engine is modelled by the statement syntax
  `Stmt`; `execStmt` gives the sqlite semantics of preparing, binding and
  running one statement (prepare-time checks first, then the binding-arity
  check, then the effect), returning the engine's changed-row count, the
  cursor rowcount and the result rows.
* Python exceptions are the inductive `PyExc`; `PyExc.isDatabaseErrorClass`
  reflects the DB-API class hierarchy in which `ProgrammingError`,
  `OperationalError` and `IntegrityError` are subclasses of `DatabaseError`
  while `TypeError` and `InterfaceError` are not.  In particular a
  placeholder-arity mismatch raises `sqlite3.ProgrammingError`
  (message `Incorrect number of bindings supplied.`), which IS a
  `DatabaseError`.
-/

namespace ExerciseApp

/-- Python exception values, tagged by class and message.  The constructors
cover the classes the wrapper and pages can observe: `TypeError`,
`NameError` (raised when an unbound local is referenced), the sqlite3
DB-API classes `InterfaceError`, `ProgrammingError`, `OperationalError`,
`IntegrityError`, and the base class `DatabaseError` (raised directly by
`Database.insert` when re-raising). -/
inductive PyExc where
  | typeError (msg : String)
  | nameError (msg : String)
  | interfaceError (msg : String)
  | programmingError (msg : String)
  | operationalError (msg : String)
  | integrityError (msg : String)
  | databaseError (msg : String)
deriving DecidableEq, Repr

/-- Whether the exception is an instance of `sqlite3.DatabaseError`
(per DB-API 2.0, `ProgrammingError`, `OperationalError` and
`IntegrityError` are its subclasses; `TypeError`, `NameError` and
`InterfaceError` are not). -/
def PyExc.isDatabaseErrorClass : PyExc → Bool
  | .programmingError _ => true
  | .operationalError _ => true
  | .integrityError _ => true
  | .databaseError _ => true
  | _ => false

/-- Whether the exception is an instance of Python's `TypeError`. -/
def PyExc.isTypeErrorClass : PyExc → Bool
  | .typeError _ => true
  | _ => false

/-- A table cell: `none` is SQL NULL, `some v` an integer value (integer
cells suffice for every claim; sqlite is dynamically typed anyway). -/
abbrev Cell := Option Int

/-- A result/storage row: the list of cell values in column order. -/
abbrev Row := List Cell

/-- The positional parameters bound to a statement's `?` placeholders. -/
abbrev Params := List Int

/-- A sqlite table: its column names and its rows. -/
structure Table where
  cols : List String
  rows : List Row
deriving DecidableEq, Repr

/-- A database: an association list from table name to table. -/
abbrev DB := List (String × Table)

/-- Look up a table by name. -/
def lookupTable : DB → String → Option Table
  | [], _ => none
  | (n, tbl) :: rest, t => if n = t then some tbl else lookupTable rest t

/-- Replace the named table (first occurrence) by a new table value. -/
def setTable : DB → String → Table → DB
  | [], _, _ => []
  | (n, tbl) :: rest, t, x =>
    if n = t then (n, x) :: rest else (n, tbl) :: setTable rest t x

/-- The two join kinds `Database.join` documents. -/
inductive JoinType where
  | left
  | inner
deriving DecidableEq, Repr

/-- The SQL keyword text of a join kind, as the caller passes it to
`Database.join` via the `join_type` argument. -/
def JoinType.sql : JoinType → String
  | .left => "LEFT JOIN"
  | .inner => "INNER JOIN"

/-- Abstract syntax of the SQL statements the wrapper passes through to the
engine.  Each constructor stands for one statement shape the wrapper's
callers can issue; `malformed` stands for unparseable SQL text. -/
inductive Stmt where
  | createTable (name : String) (cols : List String)
  | insertInto (table : String) (nplaceholders : Nat)
  | insertLit (table : String) (vals : List Cell)
  | deleteAll (table : String)
  | deleteEq (table : String) (col : String)
  | updateEq (table : String) (setCol : String) (whereCol : String)
  | selectAll (table : String)
  | joinSelect (jt : JoinType) (lt rt ljf rjf : String)
      (lfs rfs : List String)
  | malformed (text : String)
deriving DecidableEq, Repr

/-- Project the named fields out of a row of the given table (NULL when the
field does not exist; `execStmt` only runs this after validating fields). -/
def projCells (tbl : Table) (fields : List String) (r : Row) : List Cell :=
  fields.map (fun f =>
    match tbl.cols.findIdx? (· == f) with
    | some i => r.getD i none
    | none => none)

/-- The rows of `rrows` whose `ri`-th cell equals the `li`-th cell of `lr`
(SQL equality: NULL matches nothing). -/
def matchingRows (li ri : Nat) (lr : Row) (rrows : List Row) : List Row :=
  rrows.filter (fun rr =>
    match lr.getD li none with
    | some v => rr.getD ri none == some v
    | none => false)

/-- The result rows of a two-table join on column indices `li`/`ri`,
projecting `lfs` from the left table and `rfs` from the right; a LEFT join
emits an all-NULL right side for an unmatched left row. -/
def joinRows (jt : JoinType) (li ri : Nat) (ltbl rtbl : Table)
    (lfs rfs : List String) : List Row :=
  (ltbl.rows.map (fun lr =>
    let ms := matchingRows li ri lr rtbl.rows
    if jt == JoinType.left && ms.isEmpty then
      [projCells ltbl lfs lr ++ rfs.map (fun _ => (none : Cell))]
    else
      ms.map (fun rr => projCells ltbl lfs lr ++ projCells rtbl rfs rr))).flatten

/-- Outcome of successfully executing one statement: the new database, the
number of rows inserted/updated/deleted (what `total_changes` accumulates),
the cursor `rowcount` (`-1` for non-DML statements, as in sqlite3), and the
result rows the cursor can fetch. -/
structure ExecOk where
  db : DB
  changes : Nat
  rowcount : Int
  results : List Row
deriving DecidableEq, Repr

/-- The `ProgrammingError` sqlite3 raises when the bound parameters do not
match the statement's placeholder count. -/
def bindErr : PyExc := .programmingError "Incorrect number of bindings supplied."

/-- The sqlite semantics of `cursor.execute(query, params)` on one statement:
prepare-time checks (syntax, table/column existence, column count) come
first and raise `OperationalError`; then the binding-arity check raises
`ProgrammingError`; then the statement runs, atomically, on the
connection-visible database. -/
def execStmt (s : Stmt) (ps : Params) (db : DB) : Except PyExc ExecOk :=
  match s with
  | .malformed _ => .error (.operationalError "syntax error")
  | .createTable name cols =>
    match lookupTable db name with
    | some _ => .error (.operationalError ("table " ++ name ++ " already exists"))
    | none =>
      if ps.length = 0 then
        .ok ⟨db ++ [(name, ⟨cols, []⟩)], 0, -1, []⟩
      else .error bindErr
  | .insertInto t n =>
    match lookupTable db t with
    | none => .error (.operationalError ("no such table: " ++ t))
    | some tbl =>
      if tbl.cols.length = n then
        if ps.length = n then
          .ok ⟨setTable db t ⟨tbl.cols, tbl.rows ++ [ps.map Option.some]⟩, 1, 1, []⟩
        else .error bindErr
      else .error (.operationalError ("table " ++ t ++ " has a different number of columns"))
  | .insertLit t vals =>
    match lookupTable db t with
    | none => .error (.operationalError ("no such table: " ++ t))
    | some tbl =>
      if tbl.cols.length = vals.length then
        if ps.length = 0 then
          .ok ⟨setTable db t ⟨tbl.cols, tbl.rows ++ [vals]⟩, 1, 1, []⟩
        else .error bindErr
      else .error (.operationalError ("table " ++ t ++ " has a different number of columns"))
  | .deleteAll t =>
    match lookupTable db t with
    | none => .error (.operationalError ("no such table: " ++ t))
    | some tbl =>
      if ps.length = 0 then
        .ok ⟨setTable db t ⟨tbl.cols, []⟩, tbl.rows.length, (tbl.rows.length : Int), []⟩
      else .error bindErr
  | .deleteEq t c =>
    match lookupTable db t with
    | none => .error (.operationalError ("no such table: " ++ t))
    | some tbl =>
      match tbl.cols.findIdx? (· == c) with
      | none => .error (.operationalError ("no such column: " ++ c))
      | some i =>
        if ps.length = 1 then
          let v := ps.getD 0 0
          let hit := fun (r : Row) => r.getD i none == some v
          .ok ⟨setTable db t ⟨tbl.cols, tbl.rows.filter (fun r => !(hit r))⟩,
               tbl.rows.countP hit, (tbl.rows.countP hit : Int), []⟩
        else .error bindErr
  | .updateEq t sc wc =>
    match lookupTable db t with
    | none => .error (.operationalError ("no such table: " ++ t))
    | some tbl =>
      match tbl.cols.findIdx? (· == sc), tbl.cols.findIdx? (· == wc) with
      | some si, some wi =>
        if ps.length = 2 then
          let v := ps.getD 0 0
          let w := ps.getD 1 0
          let hit := fun (r : Row) => r.getD wi none == some w
          .ok ⟨setTable db t
                ⟨tbl.cols, tbl.rows.map (fun r => if hit r then r.set si (some v) else r)⟩,
               tbl.rows.countP hit, (tbl.rows.countP hit : Int), []⟩
        else .error bindErr
      | _, _ => .error (.operationalError "no such column")
  | .selectAll t =>
    match lookupTable db t with
    | none => .error (.operationalError ("no such table: " ++ t))
    | some tbl =>
      if ps.length = 0 then
        .ok ⟨db, 0, -1, tbl.rows⟩
      else .error bindErr
  | .joinSelect jt lt rt ljf rjf lfs rfs =>
    match lookupTable db lt, lookupTable db rt with
    | some ltbl, some rtbl =>
      match ltbl.cols.findIdx? (· == ljf), rtbl.cols.findIdx? (· == rjf) with
      | some li, some ri =>
        if lfs.all (fun f => (ltbl.cols.findIdx? (· == f)).isSome) &&
           rfs.all (fun f => (rtbl.cols.findIdx? (· == f)).isSome) then
          if ps.length = 0 then
            .ok ⟨db, 0, -1, joinRows jt li ri ltbl rtbl lfs rfs⟩
          else .error bindErr
        else .error (.operationalError "no such column")
      | _, _ => .error (.operationalError "no such column")
    | _, _ => .error (.operationalError "no such table")

/-- The state of one `Database` object of `src/utilities/database.py`: the
durable (committed) database, the connection-visible pending database, the
connection's `total_changes` counter, and the two configuration facts
established by `__init__` (`detect_types = PARSE_DECLTYPES | PARSE_COLNAMES`
and `row_factory = sqlite3.Row`). -/
structure Database where
  committed : DB
  pending : DB
  totalChanges : Nat
  detectTypes : Bool
  rowFactoryNamed : Bool
deriving DecidableEq, Repr

/-- The observable part of a sqlite3 cursor after an execute: its `rowcount`
and the rows it can fetch.  (`lastrowid` is not modelled; no claim uses it.) -/
structure Cursor where
  rowcount : Int
  results : List Row
deriving DecidableEq, Repr

/-- The effect of `self.conn.commit()`: the pending database becomes durable. -/
def Database.commit (st : Database) : Database :=
  { st with committed := st.pending }

/-- The effect on the connection of one successfully executed statement:
the pending database is replaced and `total_changes` grows by the number of
rows the statement inserted/updated/deleted. -/
def Database.applyExec (st : Database) (r : ExecOk) : Database :=
  { st with pending := r.db, totalChanges := st.totalChanges + r.changes }

/-- The model of `Database.__init__(self, db)`:
`sqlite3.connect(db, detect_types=sqlite3.PARSE_DECLTYPES | sqlite3.PARSE_COLNAMES)`
followed by `self.conn.row_factory = sqlite3.Row`.  `openable` is the
environment fact of whether the engine can open the file at path `db`
(`sqlite3.connect` raises `sqlite3.OperationalError` when it cannot);
`initial` is the content of an existing database file (`[]` for a fresh or
in-memory database). -/
def Database.init (db : String) (openable : Bool) (initial : DB) :
    Except PyExc Database :=
  if openable then
    .ok { committed := initial, pending := initial, totalChanges := 0,
          detectTypes := true, rowFactoryNamed := true }
  else
    .error (.operationalError ("unable to open database file " ++ db))

/-- `Database.get_total_changes(self)`: returns `self.conn.total_changes`. -/
def Database.get_total_changes (st : Database) : Nat :=
  st.totalChanges

/-- `Database.insert(self, query, values)`:
`cur = self.cur.execute(query, values); self.conn.commit()` inside a `try`
whose `except TypeError` re-raises `TypeError("Please check your values and
try again.")` and whose `except sqlite3.DatabaseError` re-raises
`sqlite3.DatabaseError("Error inserting data!")`; on success the cursor is
returned. -/
def Database.insert (st : Database) (q : Stmt) (vs : Params) :
    Database × Except PyExc Cursor :=
  match execStmt q vs st.pending with
  | .ok r => ((st.applyExec r).commit, .ok ⟨r.rowcount, r.results⟩)
  | .error e =>
    (st, .error
      (if e.isTypeErrorClass then
        PyExc.typeError "Please check your values and try again."
      else if e.isDatabaseErrorClass then
        PyExc.databaseError "Error inserting data!"
      else e))

/-- Result of `cursor.executemany`: the pending database after the executed
prefix, the accumulated changed-row count, the accumulated cursor
`rowcount`, and the first error if one occurred (a failing execution stops
the batch, leaving the earlier executions applied but uncommitted). -/
structure ManyResult where
  db : DB
  changes : Nat
  rowcount : Int
  err : Option PyExc
deriving DecidableEq, Repr

/-- `cursor.executemany(query, values)`: execute the statement once per
parameter tuple, accumulating changes and rowcount, stopping at the first
error. -/
def execManyAux (q : Stmt) (vss : List Params) (db : DB) (ch : Nat)
    (rc : Int) : ManyResult :=
  match vss with
  | [] => ⟨db, ch, rc, none⟩
  | vs :: rest =>
    match execStmt q vs db with
    | .error e => ⟨db, ch, rc, some e⟩
    | .ok r => execManyAux q rest r.db (ch + r.changes) (rc + r.rowcount)

/-- `Database.insert_many(self, query, values)`:
`self.cur.executemany(query, values); self.conn.commit(); return
self.cur.rowcount`.  A failure inside `executemany` propagates without a
commit. -/
def Database.insert_many (st : Database) (q : Stmt) (vss : List Params) :
    Database × Except PyExc Int :=
  let r := execManyAux q vss st.pending 0 0
  match r.err with
  | some e =>
    ({ st with pending := r.db, totalChanges := st.totalChanges + r.changes },
     .error e)
  | none =>
    (({ st with pending := r.db, totalChanges := st.totalChanges + r.changes }).commit,
     .ok r.rowcount)

/-- `Database.delete(self, query, pid)`:
`self.cur.execute(query, (pid,)); self.conn.commit()`. -/
def Database.delete (st : Database) (q : Stmt) (pid : Int) :
    Database × Except PyExc Unit :=
  match execStmt q [pid] st.pending with
  | .ok r => ((st.applyExec r).commit, .ok ())
  | .error e => (st, .error e)

/-- The SQL text `Database.delete_all` builds:
`F"""DELETE FROM {table_name};"""`. -/
def delete_all_sql (table_name : String) : String :=
  "DELETE FROM " ++ table_name ++ ";"

/-- `Database.delete_all(self, table_name)`: executes the statement of
`delete_all_sql table_name` (modelled by `Stmt.deleteAll`) and commits.
There is no existence check before the execute. -/
def Database.delete_all (st : Database) (table_name : String) :
    Database × Except PyExc Unit :=
  match execStmt (.deleteAll table_name) [] st.pending with
  | .ok r => ((st.applyExec r).commit, .ok ())
  | .error e => (st, .error e)

/-- `Database.update(self, query, values)`:
`self.cur.execute(query, values); self.conn.commit()`. -/
def Database.update (st : Database) (q : Stmt) (vs : Params) :
    Database × Except PyExc Unit :=
  match execStmt q vs st.pending with
  | .ok r => ((st.applyExec r).commit, .ok ())
  | .error e => (st, .error e)

/-- `Database.fetch(self, query)`:
`self.cur.execute(query); return self.cur.fetchall()` (no parameters, no
commit). -/
def Database.fetch (st : Database) (q : Stmt) :
    Database × Except PyExc (List Row) :=
  match execStmt q [] st.pending with
  | .ok r => (st.applyExec r, .ok r.results)
  | .error e => (st, .error e)

/-- `Database.fetchone(self, query)`:
`self.cur.execute(query); return self.cur.fetchone()`. -/
def Database.fetchone (st : Database) (q : Stmt) :
    Database × Except PyExc (Option Row) :=
  match execStmt q [] st.pending with
  | .ok r => (st.applyExec r, .ok r.results.head?)
  | .error e => (st, .error e)

/-- `Database.query_with_data(self, query, values)`:
`return self.cur.execute(query, values)` — the live cursor is returned and
NO commit is issued. -/
def Database.query_with_data (st : Database) (q : Stmt) (vs : Params) :
    Database × Except PyExc Cursor :=
  match execStmt q vs st.pending with
  | .ok r => (st.applyExec r, .ok ⟨r.rowcount, r.results⟩)
  | .error e => (st, .error e)

/-- `Database.create_table(self, query)`:
`self.cur.execute(query); self.conn.commit()`. -/
def Database.create_table (st : Database) (q : Stmt) :
    Database × Except PyExc Unit :=
  match execStmt q [] st.pending with
  | .ok r => ((st.applyExec r).commit, .ok ())
  | .error e => (st, .error e)

/-- `Database.vacuum(self)`: `self.cur.execute("VACUUM;")` — reorganizes
storage; no visible effect on tables, rows, `total_changes` or the
committed state. -/
def Database.vacuum (st : Database) : Database × Except PyExc Unit :=
  (st, .ok ())

/-- Result of running the statements of a script: the database after the
executed prefix (each statement auto-commits), the `total_changes` counter
after it, and the first error if one occurred. -/
structure ScriptResult where
  db : DB
  totalChanges : Nat
  err : Option PyExc
deriving DecidableEq, Repr

/-- `conn.executescript` body: the statements run one after another in
autocommit mode (each successful statement is immediately durable); the
first failing statement stops the script, itself leaving no effect. -/
def runScriptAux : List Stmt → DB → Nat → ScriptResult
  | [], db, tc => ⟨db, tc, none⟩
  | s :: rest, db, tc =>
    match execStmt s [] db with
    | .error e => ⟨db, tc, some e⟩
    | .ok r => runScriptAux rest r.db (tc + r.changes)

/-- `Database.run_script(self, script)`:
`self.conn.executescript(script); self.conn.commit()`.  Per the sqlite3
documentation, `executescript` first issues a COMMIT (flushing any pending
transaction), then runs the script's statements; the trailing
`conn.commit()` is a no-op after that.  `script` is the statement sequence
contained in the script string. -/
def Database.run_script (st : Database) (script : List Stmt) :
    Database × Except PyExc Unit :=
  let st0 := st.commit
  let r := runScriptAux script st0.pending st0.totalChanges
  let st1 : Database :=
    { committed := r.db, pending := r.db, totalChanges := r.totalChanges,
      detectTypes := st.detectTypes, rowFactoryNamed := st.rowFactoryNamed }
  match r.err with
  | some e => (st1, .error e)
  | none => (st1.commit, .ok ())

/-- The SQL text `Database.join` builds, transcribing its f-string
(including the embedded newline-and-indentation of the triple-quoted
literal and the `_left.`/`_right.` prefixes put on every field):
`f"""SELECT {comma-joined left fields}, {comma-joined right fields} FROM
{left_table} _left\n        {join_type} {right_table} _right\n        ON
_left.{left_join_field} = _right.{right_join_field};"""`. -/
def join_query (join_type left_table right_table left_join_field
    right_join_field : String) (left_field_list right_field_list : List String) :
    String :=
  let left_fields := left_field_list.map (fun field => "_left." ++ field)
  let right_fields := right_field_list.map (fun field => "_right." ++ field)
  "SELECT " ++ String.intercalate "," left_fields ++ ", " ++
    String.intercalate "," right_fields ++ " FROM " ++ left_table ++
    " _left\n        " ++ join_type ++ " " ++ right_table ++
    " _right\n        ON _left." ++ left_join_field ++ " = _right." ++
    right_join_field ++ ";"

/-- The SQL text the SPEC claims `join` builds (written from the spec's
words, for comparison with `join_query`): `SELECT <left_fields>,
<right_fields> FROM <left_table> AS L <join_type> <right_table> AS R ON
L.<left_join_field> = R.<right_join_field>`, with the field lists inserted
as raw comma-joined text. -/
def spec_join_query (join_type left_table right_table left_join_field
    right_join_field : String) (left_field_list right_field_list : List String) :
    String :=
  "SELECT " ++ String.intercalate "," left_field_list ++ ", " ++
    String.intercalate "," right_field_list ++ " FROM " ++ left_table ++
    " AS L " ++ join_type ++ " " ++ right_table ++ " AS R ON L." ++
    left_join_field ++ " = R." ++ right_join_field

/-- `Database.join(self, join_type, left_table, right_table,
left_join_field, right_join_field, left_field_list, right_field_list)`:
builds the query text of `join_query`, executes it (modelled by the
corresponding `Stmt.joinSelect`), and returns `self.cur.fetchall()`.  No
commit is issued. -/
def Database.join (st : Database) (jt : JoinType) (lt rt ljf rjf : String)
    (lfs rfs : List String) : Database × Except PyExc (List Row) :=
  match execStmt (.joinSelect jt lt rt ljf rjf lfs rfs) [] st.pending with
  | .ok r => (st.applyExec r, .ok r.results)
  | .error e => (st, .error e)

/-- One call a caller can make on a `Database` object (the Store), for
reasoning about sequences of operations over one connection. -/
inductive Op where
  | opInsert (q : Stmt) (vs : Params)
  | opInsertMany (q : Stmt) (vss : List Params)
  | opUpdate (q : Stmt) (vs : Params)
  | opDelete (q : Stmt) (pid : Int)
  | opDeleteAll (t : String)
  | opCreateTable (q : Stmt)
  | opRunScript (script : List Stmt)
  | opFetch (q : Stmt)
  | opFetchone (q : Stmt)
  | opQueryWithData (q : Stmt) (vs : Params)
  | opJoin (jt : JoinType) (lt rt ljf rjf : String) (lfs rfs : List String)
  | opVacuum
deriving DecidableEq, Repr

/-- The connection state after performing one Store call (the call's
returned value or exception is dropped; a raised exception leaves the
state as the method left it). -/
def stepOp (st : Database) : Op → Database
  | .opInsert q vs => (st.insert q vs).1
  | .opInsertMany q vss => (st.insert_many q vss).1
  | .opUpdate q vs => (st.update q vs).1
  | .opDelete q pid => (st.delete q pid).1
  | .opDeleteAll t => (st.delete_all t).1
  | .opCreateTable q => (st.create_table q).1
  | .opRunScript script => (st.run_script script).1
  | .opFetch q => (st.fetch q).1
  | .opFetchone q => (st.fetchone q).1
  | .opQueryWithData q vs => (st.query_with_data q vs).1
  | .opJoin jt lt rt ljf rjf lfs rfs => (st.join jt lt rt ljf rjf lfs rfs).1
  | .opVacuum => (st.vacuum).1

/-- The connection state after a sequence of Store calls. -/
def runOps (st : Database) : List Op → Database
  | [] => st
  | op :: rest => runOps (stepOp st op) rest

/-!
Model of `add_record` in `src/pages/1_Add_Record.py`:

```
def add_record(_date, exercise, reps, weight):
    try:
        ...
        _id = db.insert_one(data)
    except Exception as e:
        st.error(e)
    if _id:
        with message_area:
            st.success("New record added")
```
-/

/-- Outcome of the try-block body of `add_record`: either `_id` was assigned
(with the given truthiness of the assigned value) or an exception was
raised before the assignment. -/
inductive TryOutcome where
  | assigned (truthy : Bool)
  | raised (msg : String)
deriving DecidableEq, Repr

/-- What the page displayed: the arguments of `st.error` and `st.success`
calls, in order. -/
structure PageState where
  errors : List String
  successes : List String
deriving DecidableEq, Repr

/-- Python semantics of evaluating a local variable name: referencing a
local that was never assigned raises `UnboundLocalError` (a `NameError`
subclass); otherwise the value's truthiness is produced. -/
def evalLocal (v : Option Bool) : Except PyExc Bool :=
  match v with
  | none => .error (.nameError "local variable _id referenced before assignment")
  | some b => .ok b

/-- The `add_record` function of `src/pages/1_Add_Record.py`: the try/except
binds `_id` or displays the exception via `st.error`, and then the
unguarded `if _id:` evaluates the local `_id`. -/
def add_record (o : TryOutcome) : PageState × Except PyExc Unit :=
  let idVar : Option Bool :=
    match o with
    | .assigned v => some v
    | .raised _ => none
  let errs : List String :=
    match o with
    | .assigned _ => []
    | .raised m => [m]
  match evalLocal idVar with
  | .error e => (⟨errs, []⟩, .error e)
  | .ok true => (⟨errs, ["New record added"]⟩, .ok ())
  | .ok false => (⟨errs, []⟩, .ok ())

/-!
Concrete connection states used by the witness theorems.
-/

/-- A one-column table database with an empty table `t(id)`. -/
def db0 : DB := [("t", ⟨["id"], []⟩)]

/-- A fresh connection over `db0`. -/
def st0 : Database := ⟨db0, db0, 0, true, true⟩

/-- A two-column table database with a populated table `t(id, name)`. -/
def db2 : DB := [("t", ⟨["id", "name"], [[some 1, some 10], [some 2, some 20]]⟩)]

/-- A fresh connection over `db2`. -/
def st2 : Database := ⟨db2, db2, 0, true, true⟩

/-- A database with two one-column tables `a(i)` and `b(j)`, each holding
the single row `(1)`. -/
def db3 : DB := [("a", ⟨["i"], [[some 1]]⟩), ("b", ⟨["j"], [[some 1]]⟩)]

/-- A fresh connection over `db3`. -/
def st3 : Database := ⟨db3, db3, 0, true, true⟩

/-!
Helper lemmas about the table association list.
-/

/-- Setting a table that exists makes the subsequent lookup return it. -/
theorem lookupTable_setTable_self (db : DB) (t : String) (x : Table)
    (h : (lookupTable db t).isSome) :
    lookupTable (setTable db t x) t = some x := by
  induction db with
  | nil => simp [lookupTable] at h
  | cons hd rest ih =>
    obtain ⟨n, tbl⟩ := hd
    by_cases hn : n = t
    · simp [lookupTable, setTable, hn]
    · simp only [lookupTable, setTable, hn, if_false] at h ⊢
      exact ih h

/-- Replacing a table by the value the lookup already returns is the
identity. -/
theorem setTable_self (db : DB) (t : String) (tbl : Table)
    (h : lookupTable db t = some tbl) : setTable db t tbl = db := by
  induction db with
  | nil => simp [setTable]
  | cons hd rest ih =>
    obtain ⟨n, tb⟩ := hd
    by_cases hn : n = t
    · simp only [lookupTable, hn, if_true, Option.some.injEq] at h
      simp [setTable, hn, h]
    · simp only [lookupTable, hn, if_false] at h
      simp [setTable, hn, ih h]

/-- Two successive replacements of the same table collapse to the second. -/
theorem setTable_setTable (db : DB) (t : String) (x y : Table) :
    setTable (setTable db t x) t y = setTable db t y := by
  induction db with
  | nil => simp [setTable]
  | cons hd rest ih =>
    obtain ⟨n, tb⟩ := hd
    by_cases hn : n = t
    · simp [setTable, hn]
    · simp [setTable, hn, ih]

/-- Running `executemany` with an INSERT statement whose placeholder count
matches the table and whose tuples all have that arity appends one row per
tuple, succeeds, and accumulates one changed row and one rowcount unit per
tuple. -/
theorem execManyAux_insertInto (t : String) (n : Nat) (vss : List Params) :
    ∀ (db : DB) (tbl : Table) (ch : Nat) (rc : Int),
      lookupTable db t = some tbl →
      tbl.cols.length = n →
      (∀ vs ∈ vss, vs.length = n) →
      execManyAux (.insertInto t n) vss db ch rc =
        ⟨setTable db t ⟨tbl.cols, tbl.rows ++ vss.map (fun vs => vs.map Option.some)⟩,
         ch + vss.length, rc + vss.length, none⟩ := by
  induction vss with
  | nil =>
    intro db tbl ch rc hlk hcols hall
    have heta : (⟨tbl.cols, tbl.rows⟩ : Table) = tbl := rfl
    simp [execManyAux, heta, setTable_self db t tbl hlk]
  | cons vs rest ih =>
    intro db tbl ch rc hlk hcols hall
    have hlen : vs.length = n := hall vs (by simp)
    have hrest : ∀ v ∈ rest, v.length = n := fun v hv => hall v (by simp [hv])
    have hstep : execStmt (.insertInto t n) vs db =
        .ok ⟨setTable db t ⟨tbl.cols, tbl.rows ++ [vs.map Option.some]⟩, 1, 1, []⟩ := by
      simp [execStmt, hlk, hcols, hlen]
    have hlk2 : lookupTable (setTable db t ⟨tbl.cols, tbl.rows ++ [vs.map Option.some]⟩) t
        = some ⟨tbl.cols, tbl.rows ++ [vs.map Option.some]⟩ :=
      lookupTable_setTable_self db t _ (by simp [hlk])
    simp only [execManyAux, hstep]
    rw [ih _ _ _ _ hlk2 hcols hrest]
    simp only [setTable_setTable, List.append_assoc, List.singleton_append,
      List.map_cons, List.length_cons, ManyResult.mk.injEq]
    refine ⟨trivial, by omega, by push_cast; ring, trivial⟩

/-!
Claim theorems.
-/

/-- Claim C1 (code bug in `Database.insert`): a placeholder-arity mismatch
raises `sqlite3.ProgrammingError`, a subclass of `sqlite3.DatabaseError`,
so it is re-raised by the `except sqlite3.DatabaseError` branch as the
generic `sqlite3.DatabaseError("Error inserting data!")` — the very same
failure produced for an unrelated backend fault (here: a missing table).
The `except TypeError` branch (the spec's `ParameterError` kind) never
fires for value mismatches, so callers cannot distinguish the two. -/
theorem C1_insert_error_kinds :
    (st2.insert (.insertInto "t" 2) [1]).2 =
      .error (.databaseError "Error inserting data!") ∧
    (st2.insert (.insertInto "missing" 1) [5]).2 =
      .error (.databaseError "Error inserting data!") := by
  constructor <;> rfl

/-- Claim C2: for an insert-shaped statement matching an existing table and
N well-formed value tuples, `insert_many` appends exactly one row per tuple
(in order), returns N, raises `get_total_changes()` by exactly N, and
leaves the connection committed. -/
theorem C2_insert_many_count (st : Database) (t : String) (n : Nat)
    (vss : List Params) (tbl : Table)
    (hlk : lookupTable st.pending t = some tbl)
    (hcols : tbl.cols.length = n)
    (hall : ∀ vs ∈ vss, vs.length = n) :
    (st.insert_many (.insertInto t n) vss).2 = .ok (vss.length : Int) ∧
    Database.get_total_changes (st.insert_many (.insertInto t n) vss).1 =
      Database.get_total_changes st + vss.length ∧
    lookupTable ((st.insert_many (.insertInto t n) vss).1).pending t =
      some ⟨tbl.cols, tbl.rows ++ vss.map (fun vs => vs.map Option.some)⟩ ∧
    ((st.insert_many (.insertInto t n) vss).1).committed =
      ((st.insert_many (.insertInto t n) vss).1).pending := by
  have h := execManyAux_insertInto t n vss st.pending tbl 0 0 hlk hcols hall
  have hlk2 := lookupTable_setTable_self st.pending t
    (⟨tbl.cols, tbl.rows ++ vss.map (fun vs => vs.map Option.some)⟩ : Table)
    (by simp [hlk])
  simp [Database.insert_many, h, Database.commit, Database.get_total_changes, hlk2]

/-- Witness for C2: inserting three one-column tuples into the empty table
`t(id)` of `st0` returns 3, adds 3 to the change counter, stores the three
rows, and commits. -/
theorem C2_insert_many_count_witness :
    (st0.insert_many (.insertInto "t" 1) [[1], [2], [3]]).2 = .ok (3 : Int) ∧
    Database.get_total_changes (st0.insert_many (.insertInto "t" 1) [[1], [2], [3]]).1 =
      Database.get_total_changes st0 + 3 ∧
    lookupTable ((st0.insert_many (.insertInto "t" 1) [[1], [2], [3]]).1).pending "t" =
      some ⟨["id"], [[some 1], [some 2], [some 3]]⟩ ∧
    ((st0.insert_many (.insertInto "t" 1) [[1], [2], [3]]).1).committed =
      ((st0.insert_many (.insertInto "t" 1) [[1], [2], [3]]).1).pending := by
  exact C2_insert_many_count st0 "t" 1 [[1], [2], [3]] ⟨["id"], []⟩
    (by decide) (by decide) (by decide)

/-- Claim C3: every mutating operation of the Store — `insert`,
`insert_many`, `update`, `delete`, `delete_all`, `run_script` — commits
before returning on its success path: the state it returns on success has
no uncommitted changes (`committed = pending`). -/
theorem C3_mutators_commit :
    (∀ (st : Database) (q : Stmt) (vs : Params) (c : Cursor),
      (st.insert q vs).2 = .ok c →
      ((st.insert q vs).1).committed = ((st.insert q vs).1).pending) ∧
    (∀ (st : Database) (q : Stmt) (vss : List Params) (k : Int),
      (st.insert_many q vss).2 = .ok k →
      ((st.insert_many q vss).1).committed = ((st.insert_many q vss).1).pending) ∧
    (∀ (st : Database) (q : Stmt) (vs : Params),
      (st.update q vs).2 = .ok () →
      ((st.update q vs).1).committed = ((st.update q vs).1).pending) ∧
    (∀ (st : Database) (q : Stmt) (pid : Int),
      (st.delete q pid).2 = .ok () →
      ((st.delete q pid).1).committed = ((st.delete q pid).1).pending) ∧
    (∀ (st : Database) (t : String),
      (st.delete_all t).2 = .ok () →
      ((st.delete_all t).1).committed = ((st.delete_all t).1).pending) ∧
    (∀ (st : Database) (script : List Stmt),
      (st.run_script script).2 = .ok () →
      ((st.run_script script).1).committed = ((st.run_script script).1).pending) := by
  refine ⟨?_, ?_, ?_, ?_, ?_, ?_⟩
  · intro st q vs c h
    cases hE : execStmt q vs st.pending <;>
      simp [Database.insert, hE, Database.commit, Database.applyExec] at h ⊢
  · intro st q vss k h
    cases hE : (execManyAux q vss st.pending 0 0).err <;>
      simp [Database.insert_many, hE, Database.commit] at h ⊢
  · intro st q vs h
    cases hE : execStmt q vs st.pending <;>
      simp [Database.update, hE, Database.commit, Database.applyExec] at h ⊢
  · intro st q pid h
    cases hE : execStmt q [pid] st.pending <;>
      simp [Database.delete, hE, Database.commit, Database.applyExec] at h ⊢
  · intro st t h
    cases hE : execStmt (.deleteAll t) [] st.pending <;>
      simp [Database.delete_all, hE, Database.commit, Database.applyExec] at h ⊢
  · intro st script h
    cases hE : (runScriptAux script st.pending st.totalChanges).err <;>
      simp [Database.run_script, Database.commit, hE] at h ⊢

/-- Witness for C3: a successful `insert` and a successful `delete_all` on
`st2` leave the connection with `committed = pending`. -/
theorem C3_mutators_commit_witness :
    ((st2.insert (.insertInto "t" 2) [3, 30]).1).committed =
      ((st2.insert (.insertInto "t" 2) [3, 30]).1).pending ∧
    ((st2.delete_all "t").1).committed = ((st2.delete_all "t").1).pending := by
  exact ⟨C3_mutators_commit.1 st2 (.insertInto "t" 2) [3, 30] ⟨1, []⟩ rfl,
         C3_mutators_commit.2.2.2.2.1 st2 "t" rfl⟩

/-- Claim C4: when the underlying statement execution fails, every mutating
Store method propagates the failure and leaves the durable (committed)
state unchanged by the failed statement: the single-statement methods
return the untouched connection (`insert` re-raising a typed error, the
others the engine error verbatim); a failing `executemany` batch and a
failing script statement contribute nothing — in particular a script stops
at the first failing statement with the database exactly as the preceding
successful prefix left it. -/
theorem C4_failure_preserves_durable :
    (∀ (st : Database) (q : Stmt) (vs : Params) (e : PyExc),
      execStmt q vs st.pending = .error e →
      ((st.insert q vs).1) = st ∧ ∃ f, (st.insert q vs).2 = .error f) ∧
    (∀ (st : Database) (q : Stmt) (vss : List Params) (e : PyExc),
      (execManyAux q vss st.pending 0 0).err = some e →
      ((st.insert_many q vss).1).committed = st.committed ∧
      (st.insert_many q vss).2 = .error e) ∧
    (∀ (st : Database) (q : Stmt) (vs : Params) (e : PyExc),
      execStmt q vs st.pending = .error e →
      st.update q vs = (st, .error e)) ∧
    (∀ (st : Database) (q : Stmt) (pid : Int) (e : PyExc),
      execStmt q [pid] st.pending = .error e →
      st.delete q pid = (st, .error e)) ∧
    (∀ (st : Database) (t : String) (e : PyExc),
      execStmt (.deleteAll t) [] st.pending = .error e →
      st.delete_all t = (st, .error e)) ∧
    (∀ (st : Database) (q : Stmt) (e : PyExc),
      execStmt q [] st.pending = .error e →
      st.create_table q = (st, .error e)) ∧
    (∀ (db : DB) (tc : Nat) (s : Stmt) (rest : List Stmt) (e : PyExc),
      execStmt s [] db = .error e →
      runScriptAux (s :: rest) db tc = ⟨db, tc, some e⟩) ∧
    (∀ (st : Database) (script : List Stmt) (e : PyExc),
      (runScriptAux script st.pending st.totalChanges).err = some e →
      (st.run_script script).2 = .error e) := by
  refine ⟨?_, ?_, ?_, ?_, ?_, ?_, ?_, ?_⟩
  · intro st q vs e hE
    refine ⟨by simp [Database.insert, hE],
      (if e.isTypeErrorClass then
        PyExc.typeError "Please check your values and try again."
      else if e.isDatabaseErrorClass then
        PyExc.databaseError "Error inserting data!"
      else e),
      by simp [Database.insert, hE]⟩
  · intro st q vss e hE
    exact ⟨by simp [Database.insert_many, hE], by simp [Database.insert_many, hE]⟩
  · intro st q vs e hE
    simp [Database.update, hE]
  · intro st q pid e hE
    simp [Database.delete, hE]
  · intro st t e hE
    simp [Database.delete_all, hE]
  · intro st q e hE
    simp [Database.create_table, hE]
  · intro db tc s rest e hE
    simp [runScriptAux, hE]
  · intro st script e hE
    simp [Database.run_script, Database.commit, hE]

/-- Witness for C4: on `st0`, malformed SQL makes `update` return the
untouched state with the engine's `OperationalError`, and makes `insert`
return the untouched state with a (re-raised) error. -/
theorem C4_failure_preserves_durable_witness :
    st0.update (.malformed "bad sql") [] =
      (st0, .error (.operationalError "syntax error")) ∧
    ((st0.insert (.malformed "bad sql") []).1) = st0 ∧
    ∃ f, (st0.insert (.malformed "bad sql") []).2 = .error f := by
  refine ⟨C4_failure_preserves_durable.2.2.1 st0 (.malformed "bad sql") []
            (.operationalError "syntax error") rfl, ?_, ?_⟩
  · exact (C4_failure_preserves_durable.1 st0 (.malformed "bad sql") []
      (.operationalError "syntax error") rfl).1
  · exact (C4_failure_preserves_durable.1 st0 (.malformed "bad sql") []
      (.operationalError "syntax error") rfl).2

/-- Counterexample for claim C5: at a concrete input, the SQL text the code
builds differs from the text the claim prescribes — the code uses the bare
aliases `_left`/`_right` (no `AS L`/`AS R`), prefixes every field with the
alias instead of inserting the field lists raw, lays the statement out over
three indented lines, and appends a trailing semicolon. -/
theorem C5_join_sql_counterexample :
    join_query "LEFT JOIN" "a" "b" "i" "j" ["x"] ["y"] ≠
      spec_join_query "LEFT JOIN" "a" "b" "i" "j" ["x"] ["y"] := by
  decide

/-- Claim C5 (amended): for either join type, `join` builds exactly the SQL
text `SELECT <comma-joined left fields each prefixed "_left.">,
<comma-joined right fields each prefixed "_right."> FROM <left_table>
_left⏎<8 spaces><join_type> <right_table> _right⏎<8 spaces>ON
_left.<left_join_field> = _right.<right_join_field>;`, executes it without
touching the committed state, and returns all rows the executed query
produces. -/
theorem C5_join_sql_amended (jt : JoinType) (lt rt ljf rjf : String)
    (lfs rfs : List String) :
    join_query jt.sql lt rt ljf rjf lfs rfs =
      "SELECT " ++ String.intercalate "," (lfs.map (fun f => "_left." ++ f)) ++
      ", " ++ String.intercalate "," (rfs.map (fun f => "_right." ++ f)) ++
      " FROM " ++ lt ++ " _left\n        " ++ jt.sql ++ " " ++ rt ++
      " _right\n        ON _left." ++ ljf ++ " = _right." ++ rjf ++ ";" ∧
    (∀ st : Database,
      ((st.join jt lt rt ljf rjf lfs rfs).1).committed = st.committed) ∧
    (∀ (st : Database) (r : ExecOk),
      execStmt (.joinSelect jt lt rt ljf rjf lfs rfs) [] st.pending = .ok r →
      (st.join jt lt rt ljf rjf lfs rfs).2 = .ok r.results) := by
  refine ⟨rfl, ?_, ?_⟩
  · intro st
    cases hE : execStmt (.joinSelect jt lt rt ljf rjf lfs rfs) [] st.pending <;>
      simp [Database.join, hE, Database.applyExec]
  · intro st r hE
    simp [Database.join, hE]

/-- Witness for C5 (amended): joining the two singleton tables of `st3`
with an INNER join on the matching column returns the single combined
row. -/
theorem C5_join_sql_amended_witness :
    (st3.join .inner "a" "b" "i" "j" ["i"] ["j"]).2 =
      .ok [[some 1, some 1]] := by
  exact (C5_join_sql_amended .inner "a" "b" "i" "j" ["i"] ["j"]).2.2 st3
    ⟨db3, 0, -1, [[some 1, some 1]]⟩ rfl

/-- Claim C6: `delete_all` on an existing table succeeds and a following
`fetch` of `SELECT * FROM <table>` returns the empty sequence regardless
of the prior row count; on a missing table it performs no existence check
and the execute fails with the engine's `no such table` `OperationalError`
— a `DatabaseError` subclass, i.e. the spec's `EngineError` kind. -/
theorem C6_delete_all_then_fetch_empty :
    (∀ (st : Database) (t : String) (tbl : Table),
      lookupTable st.pending t = some tbl →
      (st.delete_all t).2 = .ok () ∧
      (((st.delete_all t).1).fetch (.selectAll t)).2 = .ok ([] : List Row)) ∧
    (∀ (st : Database) (t : String),
      lookupTable st.pending t = none →
      st.delete_all t = (st, .error (.operationalError ("no such table: " ++ t))) ∧
      (PyExc.operationalError ("no such table: " ++ t)).isDatabaseErrorClass = true) := by
  constructor
  · intro st t tbl hlk
    have hE : execStmt (.deleteAll t) [] st.pending =
        .ok ⟨setTable st.pending t ⟨tbl.cols, []⟩, tbl.rows.length,
             (tbl.rows.length : Int), []⟩ := by
      simp [execStmt, hlk]
    have hlk2 : lookupTable (setTable st.pending t ⟨tbl.cols, []⟩) t =
        some ⟨tbl.cols, []⟩ :=
      lookupTable_setTable_self st.pending t _ (by simp [hlk])
    have hda : st.delete_all t =
        ((st.applyExec ⟨setTable st.pending t ⟨tbl.cols, []⟩, tbl.rows.length,
          (tbl.rows.length : Int), []⟩).commit, .ok ()) := by
      simp [Database.delete_all, hE]
    constructor
    · rw [hda]
    · rw [hda]
      simp [Database.fetch, Database.applyExec, Database.commit, execStmt, hlk2]
  · intro st t hlk
    exact ⟨by simp [Database.delete_all, execStmt, hlk], rfl⟩

/-- Witness for C6: deleting all rows of the populated table `t` of `st2`
succeeds and a subsequent select returns nothing, while deleting from the
absent table `missing` fails with the `no such table` engine error. -/
theorem C6_delete_all_then_fetch_empty_witness :
    ((st2.delete_all "t").2 = .ok () ∧
      (((st2.delete_all "t").1).fetch (.selectAll "t")).2 = .ok ([] : List Row)) ∧
    (st2.delete_all "missing" =
        (st2, .error (.operationalError "no such table: missing")) ∧
      (PyExc.operationalError "no such table: missing").isDatabaseErrorClass = true) := by
  exact ⟨C6_delete_all_then_fetch_empty.1 st2 "t"
           ⟨["id", "name"], [[some 1, some 10], [some 2, some 20]]⟩ (by decide),
         C6_delete_all_then_fetch_empty.2 st2 "missing" (by decide)⟩

/-- The total-changes counter never decreases while a script runs. -/
theorem runScriptAux_totalChanges_le (script : List Stmt) :
    ∀ (db : DB) (tc : Nat), tc ≤ (runScriptAux script db tc).totalChanges := by
  induction script with
  | nil => intro db tc; simp [runScriptAux]
  | cons s rest ih =>
    intro db tc
    cases hE : execStmt s [] db with
    | error e => simp [runScriptAux, hE]
    | ok r =>
      simp only [runScriptAux, hE]
      exact le_trans (Nat.le_add_right tc r.changes) (ih r.db (tc + r.changes))

/-- No single Store call decreases the total-changes counter. -/
theorem stepOp_totalChanges_le (st : Database) (op : Op) :
    st.totalChanges ≤ (stepOp st op).totalChanges := by
  cases op with
  | opInsert q vs =>
    cases hE : execStmt q vs st.pending <;>
      simp [stepOp, Database.insert, hE, Database.applyExec, Database.commit]
  | opInsertMany q vss =>
    cases hE : (execManyAux q vss st.pending 0 0).err <;>
      simp [stepOp, Database.insert_many, hE, Database.commit]
  | opUpdate q vs =>
    cases hE : execStmt q vs st.pending <;>
      simp [stepOp, Database.update, hE, Database.applyExec, Database.commit]
  | opDelete q pid =>
    cases hE : execStmt q [pid] st.pending <;>
      simp [stepOp, Database.delete, hE, Database.applyExec, Database.commit]
  | opDeleteAll t =>
    cases hE : execStmt (.deleteAll t) [] st.pending <;>
      simp [stepOp, Database.delete_all, hE, Database.applyExec, Database.commit]
  | opCreateTable q =>
    cases hE : execStmt q [] st.pending <;>
      simp [stepOp, Database.create_table, hE, Database.applyExec, Database.commit]
  | opRunScript script =>
    cases hE : (runScriptAux script st.pending st.totalChanges).err <;>
      simp [stepOp, Database.run_script, Database.commit, hE] <;>
      exact runScriptAux_totalChanges_le script st.pending st.totalChanges
  | opFetch q =>
    cases hE : execStmt q [] st.pending <;>
      simp [stepOp, Database.fetch, hE, Database.applyExec]
  | opFetchone q =>
    cases hE : execStmt q [] st.pending <;>
      simp [stepOp, Database.fetchone, hE, Database.applyExec]
  | opQueryWithData q vs =>
    cases hE : execStmt q vs st.pending <;>
      simp [stepOp, Database.query_with_data, hE, Database.applyExec]
  | opJoin jt lt rt ljf rjf lfs rfs =>
    cases hE : execStmt (.joinSelect jt lt rt ljf rjf lfs rfs) [] st.pending <;>
      simp [stepOp, Database.join, hE, Database.applyExec]
  | opVacuum => simp [stepOp, Database.vacuum]

/-- No sequence of Store calls decreases the total-changes counter. -/
theorem runOps_totalChanges_le (ops : List Op) :
    ∀ st : Database, st.totalChanges ≤ (runOps st ops).totalChanges := by
  induction ops with
  | nil => intro st; simp [runOps]
  | cons op rest ih =>
    intro st
    exact le_trans (stepOp_totalChanges_le st op) (ih (stepOp st op))

/-- Claim C7: `get_total_changes` reports the connection's cumulative
changed-row count — zero on a freshly opened connection, incremented by
exactly the number of rows a successful statement inserted/updated/deleted
(stated for the `update` method, whose effect on the counter every other
single-statement method shares) — and its value is monotonically
non-decreasing across every sequence of Store operations on the
connection. -/
theorem C7_total_changes_monotone :
    (∀ (path : String) (initial : DB) (st : Database),
      Database.init path true initial = .ok st →
      Database.get_total_changes st = 0) ∧
    (∀ (st : Database) (q : Stmt) (vs : Params) (r : ExecOk),
      execStmt q vs st.pending = .ok r →
      Database.get_total_changes ((st.update q vs).1) =
        Database.get_total_changes st + r.changes) ∧
    (∀ (st : Database) (ops : List Op),
      Database.get_total_changes st ≤ Database.get_total_changes (runOps st ops)) := by
  refine ⟨?_, ?_, ?_⟩
  · intro path initial st h
    simp only [Database.init, if_true] at h
    cases h
    rfl
  · intro st q vs r hE
    simp [Database.update, hE, Database.applyExec, Database.commit,
      Database.get_total_changes]
  · intro st ops
    exact runOps_totalChanges_le ops st

/-- Witness for C7: a fresh in-memory connection reports zero changes;
running a whole-table delete (two rows) through `update` adds exactly two;
and `get_total_changes` does not decrease over a one-call sequence. -/
theorem C7_total_changes_monotone_witness :
    Database.get_total_changes (⟨[], [], 0, true, true⟩ : Database) = 0 ∧
    Database.get_total_changes ((st2.update (.deleteAll "t") []).1) =
      Database.get_total_changes st2 + 2 ∧
    Database.get_total_changes st2 ≤
      Database.get_total_changes (runOps st2 [.opDeleteAll "t"]) := by
  refine ⟨C7_total_changes_monotone.1 ":memory:" [] _ rfl, ?_,
    C7_total_changes_monotone.2.2 st2 [.opDeleteAll "t"]⟩
  exact C7_total_changes_monotone.2.1 st2 (.deleteAll "t") []
    ⟨setTable db2 "t" ⟨["id", "name"], []⟩, 2, 2, []⟩ rfl

/-- Claim C8: opening a Store fails (with the `OperationalError` that
`sqlite3.connect` raises — the spec's `ConnectionError` kind) exactly when
the engine cannot open the file at the given path; on success the
connection is configured with `detect_types = PARSE_DECLTYPES |
PARSE_COLNAMES` (typed columns decoded) and `row_factory = sqlite3.Row`
(rows addressable by column name as well as position), over the file's
existing contents. -/
theorem C8_init_config (path : String) (openable : Bool) (initial : DB) :
    ((∃ e, Database.init path openable initial = .error e) ↔ openable = false) ∧
    (∀ st : Database, Database.init path openable initial = .ok st →
      st.detectTypes = true ∧ st.rowFactoryNamed = true ∧
      st.committed = initial ∧ st.pending = initial) := by
  cases openable
  · refine ⟨⟨fun _ => rfl, fun _ => ⟨_, rfl⟩⟩, ?_⟩
    intro st h
    simp [Database.init] at h
  · constructor
    · constructor
      · rintro ⟨e, h⟩
        simp [Database.init] at h
      · intro h
        simp at h
    · intro st h
      simp only [Database.init, if_true] at h
      cases h
      exact ⟨rfl, rfl, rfl, rfl⟩

/-- Witness for C8: a successfully opened in-memory Store carries both
configuration facts and the initial contents, and an unopenable path makes
construction fail. -/
theorem C8_init_config_witness :
    ((⟨[], [], 0, true, true⟩ : Database).detectTypes = true ∧
      (⟨[], [], 0, true, true⟩ : Database).rowFactoryNamed = true ∧
      (⟨[], [], 0, true, true⟩ : Database).committed = [] ∧
      (⟨[], [], 0, true, true⟩ : Database).pending = []) ∧
    (∃ e, Database.init "/no/such/dir/x.db" false [] = .error e) := by
  exact ⟨(C8_init_config ":memory:" true []).2 ⟨[], [], 0, true, true⟩ rfl,
         (C8_init_config "/no/such/dir/x.db" false []).1.mpr rfl⟩

/-- Claim C9: whenever the try-block of the tracker page's `add_record`
raises before `_id` is assigned, the except-branch displays the error and
then the unguarded `if _id:` evaluates the never-assigned local `_id`,
raising `UnboundLocalError` (a `NameError`) instead of reaching a guarded
branch. -/
theorem C9_add_record_unbound_id (msg : String) :
    add_record (.raised msg) =
      (⟨[msg], []⟩,
       .error (.nameError "local variable _id referenced before assignment")) :=
  rfl

/-- Claim C10: `query_with_data` executes the parameterized statement and
returns the live cursor without committing: the durable (committed)
database is never changed by the call — only a later `commit` promotes the
pending state — and, unlike every other mutating Store method, a mutating
statement issued through it leaves the connection with uncommitted changes
(demonstrated on a concrete insert). -/
theorem C10_query_with_data_no_commit :
    (∀ (st : Database) (q : Stmt) (vs : Params),
      ((st.query_with_data q vs).1).committed = st.committed) ∧
    (∀ st : Database, (Database.commit st).committed = st.pending) ∧
    ((st0.query_with_data (.insertInto "t" 1) [7]).1).pending ≠
      ((st0.query_with_data (.insertInto "t" 1) [7]).1).committed := by
  refine ⟨?_, fun st => rfl, by decide⟩
  intro st q vs
  cases hE : execStmt q vs st.pending <;>
    simp [Database.query_with_data, hE, Database.applyExec]

end ExerciseApp
